import Mathlib

/-!
Verification of the tmdb-client-py resource layer.

This file gives a shallow embedding of the parameter assembly, path
building, response mirroring and error propagation of the tmdb-client-py
library, and proves (or refutes) the properties stated in its
specification.

Python dictionaries are modelled as association lists over `String` keys:
insertion updates a present key in place and otherwise appends at the end,
exactly as CPython dictionaries behave.  Python `str.replace` and the
substring test `pat in s` are modelled on the underlying character lists.
JSON scalars are modelled with `Rat` standing in for Python floats; the
client never computes with these values, it only carries them, so the
choice of number representation is immaterial.

The shared base class `TMDB` (module `base.py`) is not part of the
reviewed sources; definitions derived from its specified contract are
marked `Modelled from the spec:` in their doc comments.
-/

/-- Scalar value carried in a query mapping or JSON body, as assembled by
the client before serialisation. -/
inductive Value where
  | str (s : String)
  | int (n : Int)
  | float (q : Rat)
  | bool (b : Bool)
  | null
  deriving DecidableEq, Repr

/-- Decoded JSON document, as returned by the remote service. -/
inductive Json where
  | null
  | bool (b : Bool)
  | num (q : Rat)
  | str (s : String)
  | arr (elems : List Json)
  | obj (fields : List (String × Json))
  deriving Repr

/-- Lookup in a Python dictionary: the value stored under `key`, if any. -/
def dictLookup {α : Type} : List (String × α) → String → Option α
  | [], _ => none
  | (k, v) :: rest, key => if key = k then some v else dictLookup rest key

/-- Assignment `d[key] = val` on a Python dictionary: a present key keeps
its position and gets the new value; an absent key is appended at the end. -/
def dictInsert {α : Type} : List (String × α) → String → α → List (String × α)
  | [], key, val => [(key, val)]
  | (k, v) :: rest, key, val =>
    if key = k then (k, val) :: rest else (k, v) :: dictInsert rest key val

/-- Python `d.pop(key)` without a default: the removed value and the
remaining dictionary, or `none` (a `KeyError`) when the key is absent. -/
def dictPop {α : Type} : List (String × α) → String → Option (α × List (String × α))
  | [], _ => none
  | (k, v) :: rest, key =>
    if key = k then some (v, rest)
    else
      match dictPop rest key with
      | some (val, d) => some (val, (k, v) :: d)
      | none => none

/-- Keys of a Python dictionary, in insertion order. -/
def dictKeys {α : Type} (d : List (String × α)) : List String :=
  d.map Prod.fst

/-- Does the character list `l` start with `pat`? -/
def charsLeadWith : List Char → List Char → Bool
  | [], _ => true
  | _ :: _, [] => false
  | p :: ps, c :: cs => p == c && charsLeadWith ps cs

/-- Does `pat` occur as a contiguous run inside `l`?  This is Python
`pat in s` on the character lists. -/
def charsContain (pat : List Char) : List Char → Bool
  | [] => pat.isEmpty
  | c :: rest => charsLeadWith pat (c :: rest) || charsContain pat rest

/-- One fuelled pass of Python `str.replace`: scan left to right and
replace every non-overlapping occurrence of `pat` by `rep`.  The fuel is
the length of the scanned list, which each step strictly consumes. -/
def charsReplaceAux (pat rep : List Char) : Nat → List Char → List Char
  | 0, l => l
  | _ + 1, [] => []
  | fuel + 1, c :: rest =>
    if charsLeadWith pat (c :: rest) && !pat.isEmpty then
      rep ++ charsReplaceAux pat rep fuel (rest.drop (pat.length - 1))
    else
      c :: charsReplaceAux pat rep fuel rest

/-- Python `s.replace(pat, rep)`: every non-overlapping occurrence of
`pat` in `s`, scanned left to right, is replaced by `rep`. -/
def pyReplace (s pat rep : String) : String :=
  String.mk (charsReplaceAux pat.data rep.data s.data.length s.data)

/-- Python `pat in s` on strings. -/
def pyContains (s pat : String) : Bool :=
  charsContain pat.data s.data

/-- Optional insertion: the Python idiom `if x is not None: d[k] = x`
collapsed to one step over an already-encoded optional value. -/
def insOpt (d : List (String × Value)) (k : String) (v : Option Value) :
    List (String × Value) :=
  match v with
  | some x => dictInsert d k x
  | none => d

theorem dictLookup_insert {α : Type} (d : List (String × α)) (k2 : String) (x : α)
    (k : String) :
    dictLookup (dictInsert d k2 x) k =
      if k = k2 then some x else dictLookup d k := by
  induction d with
  | nil =>
    by_cases h : k = k2 <;> simp [dictInsert, dictLookup, h]
  | cons hd tl ih =>
    obtain ⟨k0, v0⟩ := hd
    by_cases h2 : k2 = k0
    · subst h2
      by_cases h : k = k2 <;> simp [dictInsert, dictLookup, h]
    · by_cases h : k = k0
      · subst h
        simp [dictInsert, dictLookup, h2, Ne.symm h2]
      · simp [dictInsert, dictLookup, h2, h, ih]

theorem dictLookup_insOpt_miss (d : List (String × Value)) (k2 : String)
    (v : Option Value) (k : String) (h : k ≠ k2) :
    dictLookup (insOpt d k2 v) k = dictLookup d k := by
  cases v with
  | some x => simp [insOpt, dictLookup_insert, h]
  | none => rfl

theorem dictLookup_insOpt_hit (d : List (String × Value)) (k : String)
    (v : Option Value) (h : dictLookup d k = none) :
    dictLookup (insOpt d k v) k = v := by
  cases v with
  | some x => simp [insOpt, dictLookup_insert]
  | none => exact h

theorem mem_dictKeys_insOpt {x : String} {d : List (String × Value)} {k : String}
    {v : Option Value} (hx : x ∈ dictKeys (insOpt d k v)) :
    x = k ∨ x ∈ dictKeys d := by
  cases v with
  | none => exact Or.inr hx
  | some w =>
    simp only [insOpt] at hx
    induction d with
    | nil =>
      simp [dictInsert, dictKeys] at hx
      exact Or.inl hx
    | cons hd tl ih =>
      obtain ⟨k0, v0⟩ := hd
      simp only [dictInsert] at hx
      by_cases h : k = k0
      · subst h
        simp [dictKeys] at hx
        rcases hx with h1 | h1
        · exact Or.inl h1
        · exact Or.inr (by simp [dictKeys, h1])
      · simp [h, dictKeys] at hx
        rcases hx with h1 | h1
        · exact Or.inr (by simp [dictKeys, h1])
        · rcases ih (by simpa [dictKeys] using h1) with h2 | h2
          · exact Or.inl h2
          · exact Or.inr (by simp [dictKeys] at h2 ⊢; exact Or.inr h2)

/-- One iteration of the key-rewrite loop in `Discover.movie` and
`Discover.tv` (discover.py lines 242 to 246 and 412 to 416): when the
snapshot key contains the substring `_lte`, pop it and store its value
under the key with every `_lte` replaced by `.lte`; then likewise for
`_gte`.  The second test still inspects the original key, so a key
containing both substrings pops twice and raises a `KeyError`, modelled
here as `Except.error ()`. -/
def rewriteParam (kwargs : List (String × Value)) (param : String) :
    Except Unit (List (String × Value)) :=
  let step1 : Except Unit (List (String × Value)) :=
    if pyContains param "_lte" then
      match dictPop kwargs param with
      | some (v, rest) => Except.ok (dictInsert rest (pyReplace param "_lte" ".lte") v)
      | none => Except.error ()
    else Except.ok kwargs
  match step1 with
  | Except.error e => Except.error e
  | Except.ok d1 =>
    if pyContains param "_gte" then
      match dictPop d1 param with
      | some (v, rest) => Except.ok (dictInsert rest (pyReplace param "_gte" ".gte") v)
      | none => Except.error ()
    else Except.ok d1

/-- The rewrite loop body iterated over the snapshot of keys taken at
loop entry (Python `for param in dict(kwargs)`). -/
def rewriteLoop : List String → List (String × Value) →
    Except Unit (List (String × Value))
  | [], d => Except.ok d
  | p :: ps, d =>
    match rewriteParam d p with
    | Except.ok d2 => rewriteLoop ps d2
    | Except.error e => Except.error e

/-- The whole `_gte`/`_lte` rewrite pass of `Discover.movie` and
`Discover.tv`: iterate the rewrite body over the keys present when the
loop starts. -/
def rewriteKwargs (d : List (String × Value)) : Except Unit (List (String × Value)) :=
  rewriteLoop (dictKeys d) d

/-- Declared keyword parameters of `Discover.movie` (discover.py lines 28
to 61), each optional and defaulting to unset. -/
structure DiscoverMovieArgs where
  language : Option String := none
  region : Option String := none
  sort_by : Option String := none
  certification_country : Option String := none
  certification : Option String := none
  certification_lte : Option String := none
  certification_gte : Option String := none
  include_adult : Option Bool := none
  include_video : Option Bool := none
  page : Option Int := none
  primary_release_year : Option Int := none
  primary_release_date_gte : Option String := none
  primary_release_date_lte : Option String := none
  release_date_gte : Option String := none
  release_date_lte : Option String := none
  year : Option Int := none
  vote_count_gte : Option Int := none
  vote_count_lte : Option Int := none
  vote_average_gte : Option Rat := none
  vote_average_lte : Option Rat := none
  with_cast : Option String := none
  with_crew : Option String := none
  with_people : Option String := none
  with_companies : Option String := none
  with_genres : Option String := none
  without_genres : Option String := none
  with_keywords : Option String := none
  without_keywords : Option String := none
  with_runtime_gte : Option Int := none
  with_runtime_lte : Option Int := none
  with_original_language : Option String := none

/-- Encoding of an optional Python `str` argument as a query value. -/
def optStr : Option String → Option Value
  | some s => some (Value.str s)
  | none => none

/-- Encoding of an optional Python `int` argument as a query value. -/
def optInt : Option Int → Option Value
  | some n => some (Value.int n)
  | none => none

/-- Encoding of an optional Python `float` argument as a query value. -/
def optFloat : Option Rat → Option Value
  | some q => some (Value.float q)
  | none => none

/-- Encoding of an optional Python `bool` argument as a query value. -/
def optBool : Option Bool → Option Value
  | some b => some (Value.bool b)
  | none => none

/-- Left fold of the Python idiom `if x is not None: kwargs[k] = x` over a
list of wire-key / optional-value pairs, starting from the dictionary
already holding the extra keyword arguments. -/
def buildParams (extra : List (String × Value)) (ps : List (String × Option Value)) :
    List (String × Value) :=
  ps.foldl (fun d kv => insOpt d kv.1 kv.2) extra

/-- Wire keys and encoded values of the declared parameters of
`Discover.movie`, in the insertion order of discover.py lines 177 to 238. -/
def movieParams (a : DiscoverMovieArgs) : List (String × Option Value) :=
  [("language", optStr a.language),
   ("region", optStr a.region),
   ("sort_by", optStr a.sort_by),
   ("certification_country", optStr a.certification_country),
   ("certification", optStr a.certification),
   ("certification.lte", optStr a.certification_lte),
   ("certification.gte", optStr a.certification_gte),
   ("include_adult", optBool a.include_adult),
   ("include_video", optBool a.include_video),
   ("page", optInt a.page),
   ("primary_release_year", optInt a.primary_release_year),
   ("primary_release_date.gte", optStr a.primary_release_date_gte),
   ("primary_release_date.lte", optStr a.primary_release_date_lte),
   ("release_date.gte", optStr a.release_date_gte),
   ("release_date.lte", optStr a.release_date_lte),
   ("year", optInt a.year),
   ("vote_count.gte", optInt a.vote_count_gte),
   ("vote_count.lte", optInt a.vote_count_lte),
   ("vote_average.gte", optFloat a.vote_average_gte),
   ("vote_average.lte", optFloat a.vote_average_lte),
   ("with_cast", optStr a.with_cast),
   ("with_crew", optStr a.with_crew),
   ("with_people", optStr a.with_people),
   ("with_companies", optStr a.with_companies),
   ("with_genres", optStr a.with_genres),
   ("without_genres", optStr a.without_genres),
   ("with_keywords", optStr a.with_keywords),
   ("without_keywords", optStr a.without_keywords),
   ("with_runtime.gte", optInt a.with_runtime_gte),
   ("with_runtime.lte", optInt a.with_runtime_lte),
   ("with_original_language", optStr a.with_original_language)]

/-- The conditional inserts of `Discover.movie` (discover.py lines 177 to
238), applied in source order on top of the extra keyword arguments. -/
def movieBuild (a : DiscoverMovieArgs) (extra : List (String × Value)) :
    List (String × Value) :=
  buildParams extra (movieParams a)

/-- The query mapping sent by `Discover.movie`: declared parameters merged
into the extra keyword arguments, then the `_gte`/`_lte` rewrite pass. -/
def discoverMovieKwargs (a : DiscoverMovieArgs) (extra : List (String × Value)) :
    Except Unit (List (String × Value)) :=
  rewriteKwargs (movieBuild a extra)

/-- Declared keyword parameters of `Discover.tv` (discover.py lines 254
to 277), each optional and defaulting to unset. -/
structure DiscoverTvArgs where
  language : Option String := none
  sort_by : Option String := none
  air_date_gte : Option String := none
  air_date_lte : Option String := none
  first_air_date_gte : Option String := none
  first_air_date_lte : Option String := none
  first_air_date_year : Option Int := none
  page : Option Int := none
  timezone : Option String := none
  vote_average_gte : Option Rat := none
  vote_count_gte : Option Int := none
  with_genres : Option String := none
  with_networks : Option String := none
  without_genres : Option String := none
  with_runtime_gte : Option Int := none
  with_runtime_lte : Option Int := none
  include_null_first_air_dates : Option Bool := none
  with_original_language : Option String := none
  without_keywords : Option String := none
  screened_theatrically : Option Bool := none
  with_companies : Option String := none
  with_keywords : Option String := none

/-- Wire keys and encoded values of the declared parameters of
`Discover.tv`, in the insertion order of discover.py lines 365 to 408. -/
def tvParams (a : DiscoverTvArgs) : List (String × Option Value) :=
  [("language", optStr a.language),
   ("sort_by", optStr a.sort_by),
   ("air_date.gte", optStr a.air_date_gte),
   ("air_date.lte", optStr a.air_date_lte),
   ("first_air_date.gte", optStr a.first_air_date_gte),
   ("first_air_date.lte", optStr a.first_air_date_lte),
   ("first_air_date_year", optInt a.first_air_date_year),
   ("page", optInt a.page),
   ("timezone", optStr a.timezone),
   ("vote_average.gte", optFloat a.vote_average_gte),
   ("vote_count.gte", optInt a.vote_count_gte),
   ("with_genres", optStr a.with_genres),
   ("with_networks", optStr a.with_networks),
   ("without_genres", optStr a.without_genres),
   ("with_runtime.gte", optInt a.with_runtime_gte),
   ("with_runtime.lte", optInt a.with_runtime_lte),
   ("include_null_first_air_dates", optBool a.include_null_first_air_dates),
   ("with_original_language", optStr a.with_original_language),
   ("without_keywords", optStr a.without_keywords),
   ("screened_theatrically", optBool a.screened_theatrically),
   ("with_companies", optStr a.with_companies),
   ("with_keywords", optStr a.with_keywords)]

/-- The conditional inserts of `Discover.tv` (discover.py lines 365 to
408), applied in source order on top of the extra keyword arguments. -/
def tvBuild (a : DiscoverTvArgs) (extra : List (String × Value)) :
    List (String × Value) :=
  buildParams extra (tvParams a)

/-- The query mapping sent by `Discover.tv`: declared parameters merged
into the extra keyword arguments, then the `_gte`/`_lte` rewrite pass. -/
def discoverTvKwargs (a : DiscoverTvArgs) (extra : List (String × Value)) :
    Except Unit (List (String × Value)) :=
  rewriteKwargs (tvBuild a extra)

/-- Endpoint-template map of the `Movies` class (movies.py lines 24 to 49). -/
def moviesURLS : List (String × String) :=
  [("details", "/{id}"),
   ("account_states", "/{id}/account_states"),
   ("alternative_titles", "/{id}/alternative_titles"),
   ("changes", "/{id}/changes"),
   ("credits", "/{id}/credits"),
   ("external_ids", "/{id}/external_ids"),
   ("images", "/{id}/images"),
   ("keywords", "/{id}/keywords"),
   ("lists", "/{id}/lists"),
   ("recommendations", "/{id}/recommendations"),
   ("release_dates", "/{id}/release_dates"),
   ("reviews", "/{id}/reviews"),
   ("similar_movies", "/{id}/similar_movies"),
   ("translations", "/{id}/translations"),
   ("videos", "/{id}/videos"),
   ("watch_providers", "/{id}/watch/providers"),
   ("rating", "/{id}/rating"),
   ("rating_delete", "/{id}/rating"),
   ("latest", "/latest"),
   ("now_playing", "/now_playing"),
   ("popular", "/popular"),
   ("top_rated", "/top_rated"),
   ("upcoming", "/upcoming"),
   ("releases", "/{id}/releases")]

/-- Endpoint-template map of the `Account` class (account.py lines 25 to 37). -/
def accountURLS : List (String × String) :=
  [("info", ""),
   ("lists", "/{id}/lists"),
   ("favorite_movies", "/{id}/favorite/movies"),
   ("favorite_tv", "/{id}/favorite/tv"),
   ("favorite", "/{id}/favorite"),
   ("rated_movies", "/{id}/rated/movies"),
   ("rated_tv", "/{id}/rated/tv"),
   ("rated_tv_episodes", "/{id}/rated/tv/episodes"),
   ("watchlist_movies", "/{id}/watchlist/movies"),
   ("watchlist_tv", "/{id}/watchlist/tv"),
   ("watchlist", "/{id}/watchlist")]

/-- The per-id methods of `Account`: every public method of the class
except `info`, each of which builds its path through `_get_id_path`
(account.py lines 59 to 339). -/
def accountPerIdMethods : List String :=
  ["lists", "favorite_movies", "favorite_tv", "favorite", "rated_movies",
   "rated_tv", "rated_tv_episodes", "watchlist_movies", "watchlist_tv",
   "watchlist"]

/-- Query mapping assembled by `Account.lists` (account.py lines 71 to
76): an empty dictionary, then `language` and `page` inserted only when
supplied. -/
def accountListsKwargs (language : Option String) (page : Option Int) :
    List (String × Value) :=
  insOpt (insOpt [] "language" (optStr language)) "page" (optInt page)

/-- Query mapping assembled by `Movies.details` (movies.py lines 72 to
77): an empty dictionary, then `language` and `append_to_response`
inserted only when supplied. -/
def moviesDetailsKwargs (language : Option String) (append_to_response : Option String) :
    List (String × Value) :=
  insOpt (insOpt [] "language" (optStr language)) "append_to_response"
    (optStr append_to_response)

/-- Query mapping of `Lists.list_create` (account.py line 649): always
exactly the session identifier held by the object. -/
def listCreateQuery (session_id : Value) : List (String × Value) :=
  [("session_id", session_id)]

/-- JSON body of `Lists.list_create` (account.py lines 651 to 655): the
dictionary literal includes the `language` key unconditionally, so an
unset language is serialised as JSON `null`. -/
def listCreatePayload (name description : String) (language : Option String) :
    List (String × Value) :=
  [("name", Value.str name),
   ("description", Value.str description),
   ("language", match language with
     | some l => Value.str l
     | none => Value.null)]

/-- Modelled from the spec: the response mirror of the base `TMDB` class
(`_set_attrs_to_values`, absent from src/).  Per section 4.4 of the
specification, when the decoded response is a JSON object every top-level
key/value pair is copied onto the resource object as an attribute,
overwriting same-named attributes; any other top-level shape leaves the
attribute bag untouched. -/
def setAttrsToValues (attrs : List (String × Json)) (response : Json) :
    List (String × Json) :=
  match response with
  | Json.obj fields => fields.foldl (fun acc kv => dictInsert acc kv.1 kv.2) attrs
  | _ => attrs

/-- Failure conditions a client call can surface, per the error taxonomy
of section 7 of the specification. -/
inductive ApiError where
  | config (key : String)
  | http (status : Nat)
  | decode
  | transport
  deriving DecidableEq, Repr

/-- Modelled from the spec: the transport collaborator's verdict on one
HTTP exchange (section 6), which the dispatcher consumes. -/
inductive HttpOutcome where
  | success (body : Json)
  | httpError (status : Nat)
  | decodeError
  | transportError

/-- Modelled from the spec: the path builder of the base `TMDB` class
(`_get_path`, absent from src/).  Per section 4.1 of the specification it
concatenates the class base path with the template found under the
endpoint name, and fails with a configuration error when the name is not
a key of the map. -/
def getPath (basePath : String) (urls : List (String × String)) (key : String) :
    Except ApiError String :=
  match dictLookup urls key with
  | some tmpl => Except.ok (basePath ++ tmpl)
  | none => Except.error (ApiError.config key)

/-- Modelled from the spec: the dispatcher of the base `TMDB` class
(section 4.3 and section 7): a successful exchange yields the decoded
JSON, every failure is surfaced as its own error kind, the remote-error
kind carrying the HTTP status code. -/
def dispatch (outcome : HttpOutcome) : Except ApiError Json :=
  match outcome with
  | HttpOutcome.success body => Except.ok body
  | HttpOutcome.httpError status => Except.error (ApiError.http status)
  | HttpOutcome.decodeError => Except.error ApiError.decode
  | HttpOutcome.transportError => Except.error ApiError.transport

/-- Modelled from the spec: one whole GET round trip of a resource method
(sections 2 and 4): build the path, dispatch, mirror the response, and
return the updated attribute bag together with the decoded body.  Any
failure propagates and leaves the attribute bag with the caller. -/
def runGetMethod (basePath : String) (urls : List (String × String)) (key : String)
    (attrs : List (String × Json)) (query : List (String × Value))
    (outcome : HttpOutcome) : Except ApiError (List (String × Json) × Json) :=
  match getPath basePath urls key with
  | Except.error e => Except.error e
  | Except.ok _path =>
    match dispatch outcome with
    | Except.error e => Except.error e
    | Except.ok body =>
      let _ := query
      Except.ok (setAttrsToValues attrs body, body)

/-- Attribute bag of a fresh `Account` object (account.py lines 39 to
41): the constructor stores only the session identifier; no `id`
attribute exists until a successful `info` call sets one.  Modelled from
the spec for the base constructor: section 3 has the resource object hold
only identifiers supplied at construction. -/
def accountInitAttrs (session_id : Json) : List (String × Json) :=
  [("session_id", session_id)]

/-- Attribute bag of a fresh `Lists` object (account.py lines 593 to
597): `id` and `session_id` from the constructor arguments, `list_id`
initialised to `None`. -/
def listsInitAttrs (id session_id : Json) : List (String × Json) :=
  [("id", id), ("session_id", session_id), ("list_id", Json.null)]

/-- Failure conditions of path building for per-id endpoints. -/
inductive PathFailure where
  | config (key : String)
  | attrMissing (name : String)
  deriving DecidableEq, Repr

/-- Rendering of a JSON scalar into a path segment, standing in for the
Python `str` conversion applied by `str.format`.  Per-id paths only ever
substitute numeric or string identifiers, so the rendering of the other
shapes is irrelevant to every property proved here. -/
def renderJson : Json → String
  | Json.str s => s
  | Json.num q => if q.den = 1 then toString q.num else toString q
  | Json.bool b => if b then "True" else "False"
  | Json.null => "None"
  | Json.arr _ => "list"
  | Json.obj _ => "dict"

/-- Modelled from the spec: the per-id path builder of the base `TMDB`
class (`_get_id_path`, absent from src/).  Per sections 4.1 and 8 of the
specification it substitutes the resource object's own identifier into
the `{id}` placeholder of the named template; reading the identifier is a
Python attribute access on the object, which fails when no `id`
attribute has ever been assigned. -/
def getIdPath (basePath : String) (urls : List (String × String))
    (attrs : List (String × Json)) (key : String) : Except PathFailure String :=
  match dictLookup urls key with
  | none => Except.error (PathFailure.config key)
  | some tmpl =>
    match dictLookup attrs "id" with
    | some v => Except.ok (pyReplace (basePath ++ tmpl) "{id}" (renderJson v))
    | none => Except.error (PathFailure.attrMissing "id")

/-- State change of a successful `Account.info` call (account.py lines 43
to 57): the method reads `response["id"]` — a `KeyError` when the decoded
object has no such key, a `TypeError` when the response is not an object —
assigns it to the `id` attribute, and then mirrors the whole response. -/
def accountInfo (attrs : List (String × Json)) (response : Json) :
    Except String (List (String × Json)) :=
  match response with
  | Json.obj fields =>
    match dictLookup fields "id" with
    | some v =>
      Except.ok (setAttrsToValues (dictInsert attrs "id" v) (Json.obj fields))
    | none => Except.error "KeyError: id"
  | _ => Except.error "TypeError: response is not an object"

/-- State change of a successful `Lists.list_create` call (account.py
lines 657 to 659): the response is mirrored, then the method copies the
`list_id` attribute — just mirrored from the response, `None` from the
constructor otherwise — into the `id` attribute.  The attribute read
fails only if `list_id` was never assigned, which the constructor rules
out. -/
def listCreateAfter (attrs : List (String × Json)) (response : Json) :
    Option (List (String × Json)) :=
  let mirrored := setAttrsToValues attrs response
  match dictLookup mirrored "list_id" with
  | some v => some (dictInsert mirrored "id" v)
  | none => none

theorem dictLookup_of_not_mem {α : Type} (d : List (String × α)) (k : String)
    (h : k ∉ dictKeys d) : dictLookup d k = none := by
  induction d with
  | nil => rfl
  | cons p ps ih =>
    simp [dictKeys] at h
    simp [dictLookup, h.1, ih (by simp [dictKeys, h.2])]

theorem dictLookup_of_nodup_mem {α : Type} (d : List (String × α)) (k : String)
    (v : α) (hnd : (d.map Prod.fst).Nodup) (hmem : (k, v) ∈ d) :
    dictLookup d k = some v := by
  induction d with
  | nil => simp at hmem
  | cons p ps ih =>
    rcases List.mem_cons.mp hmem with h | h
    · subst h
      simp [dictLookup]
    · have hk : k ∈ ps.map Prod.fst := List.mem_map.mpr ⟨(k, v), h, rfl⟩
      have hne : k ≠ p.1 := by
        intro he
        exact (List.nodup_cons.mp hnd).1 (he ▸ hk)
      obtain ⟨k0, v0⟩ := p
      have hne2 : k ≠ k0 := hne
      rw [show dictLookup ((k0, v0) :: ps) k
          = if k = k0 then some v0 else dictLookup ps k from rfl, if_neg hne2]
      exact ih (List.nodup_cons.mp hnd).2 h

theorem dictLookup_buildParams_miss (ps : List (String × Option Value))
    (extra : List (String × Value)) (k : String)
    (h : ∀ kv ∈ ps, k ≠ kv.1) :
    dictLookup (buildParams extra ps) k = dictLookup extra k := by
  induction ps generalizing extra with
  | nil => rfl
  | cons p ps ih =>
    have hstep : buildParams extra (p :: ps) = buildParams (insOpt extra p.1 p.2) ps := rfl
    rw [hstep, ih (insOpt extra p.1 p.2) (fun kv hkv => h kv (List.mem_cons_of_mem _ hkv))]
    exact dictLookup_insOpt_miss _ _ _ _ (h p (List.mem_cons_self _ _))

theorem dictLookup_buildParams_hit (ps : List (String × Option Value))
    (extra : List (String × Value)) (k : String) (v : Option Value)
    (h1 : dictLookup extra k = none)
    (hnd : (ps.map Prod.fst).Nodup) (hmem : (k, v) ∈ ps) :
    dictLookup (buildParams extra ps) k = v := by
  induction ps generalizing extra with
  | nil => simp at hmem
  | cons p ps ih =>
    have hstep : buildParams extra (p :: ps) = buildParams (insOpt extra p.1 p.2) ps := rfl
    rw [hstep]
    rcases List.mem_cons.mp hmem with h | h
    · subst h
      have hnotin : k ∉ ps.map Prod.fst := (List.nodup_cons.mp hnd).1
      rw [dictLookup_buildParams_miss ps _ k
        (fun kv hkv => fun he => hnotin (he ▸ List.mem_map.mpr ⟨kv, hkv, rfl⟩))]
      exact dictLookup_insOpt_hit extra k v h1
    · have hk : k ∈ ps.map Prod.fst := List.mem_map.mpr ⟨(k, v), h, rfl⟩
      have hne : k ≠ p.1 := by
        intro he
        exact (List.nodup_cons.mp hnd).1 (he ▸ hk)
      exact ih (insOpt extra p.1 p.2)
        ((dictLookup_insOpt_miss extra p.1 p.2 k hne).trans h1)
        (List.nodup_cons.mp hnd).2 h

theorem mem_dictKeys_buildParams {x : String} (ps : List (String × Option Value))
    (extra : List (String × Value))
    (hx : x ∈ dictKeys (buildParams extra ps)) :
    x ∈ dictKeys extra ∨ x ∈ ps.map Prod.fst := by
  induction ps generalizing extra with
  | nil => exact Or.inl hx
  | cons p ps ih =>
    have hstep : buildParams extra (p :: ps) = buildParams (insOpt extra p.1 p.2) ps := rfl
    rw [hstep] at hx
    rcases ih (insOpt extra p.1 p.2) hx with h | h
    · rcases mem_dictKeys_insOpt h with h2 | h2
      · exact Or.inr (by simp [h2])
      · exact Or.inl h2
    · exact Or.inr (by simp [h])

theorem rewriteParam_clean (d : List (String × Value)) (p : String)
    (h1 : pyContains p "_lte" = false) (h2 : pyContains p "_gte" = false) :
    rewriteParam d p = Except.ok d := by
  simp [rewriteParam, h1, h2]

theorem rewriteLoop_clean (ps : List String) (d : List (String × Value))
    (h : ∀ p ∈ ps, pyContains p "_lte" = false ∧ pyContains p "_gte" = false) :
    rewriteLoop ps d = Except.ok d := by
  induction ps with
  | nil => rfl
  | cons p ps ih =>
    have hp := h p (List.mem_cons_self _ _)
    simp only [rewriteLoop]
    rw [rewriteParam_clean d p hp.1 hp.2]
    exact ih (fun q hq => h q (List.mem_cons_of_mem _ hq))

theorem rewriteKwargs_clean (d : List (String × Value))
    (h : ∀ p ∈ dictKeys d, pyContains p "_lte" = false ∧ pyContains p "_gte" = false) :
    rewriteKwargs d = Except.ok d :=
  rewriteLoop_clean (dictKeys d) d h

/-- Wire keys of the declared `Discover.movie` parameters, in insertion
order. -/
def movieWireKeys : List String :=
  ["language", "region", "sort_by", "certification_country", "certification",
   "certification.lte", "certification.gte", "include_adult", "include_video",
   "page", "primary_release_year", "primary_release_date.gte",
   "primary_release_date.lte", "release_date.gte", "release_date.lte", "year",
   "vote_count.gte", "vote_count.lte", "vote_average.gte", "vote_average.lte",
   "with_cast", "with_crew", "with_people", "with_companies", "with_genres",
   "without_genres", "with_keywords", "without_keywords", "with_runtime.gte",
   "with_runtime.lte", "with_original_language"]

/-- Wire keys of the declared `Discover.tv` parameters, in insertion
order. -/
def tvWireKeys : List String :=
  ["language", "sort_by", "air_date.gte", "air_date.lte", "first_air_date.gte",
   "first_air_date.lte", "first_air_date_year", "page", "timezone",
   "vote_average.gte", "vote_count.gte", "with_genres", "with_networks",
   "without_genres", "with_runtime.gte", "with_runtime.lte",
   "include_null_first_air_dates", "with_original_language", "without_keywords",
   "screened_theatrically", "with_companies", "with_keywords"]

theorem movieParams_fst (a : DiscoverMovieArgs) :
    (movieParams a).map Prod.fst = movieWireKeys := rfl

theorem tvParams_fst (a : DiscoverTvArgs) :
    (tvParams a).map Prod.fst = tvWireKeys := rfl

theorem movieBuild_clean (a : DiscoverMovieArgs) :
    ∀ p ∈ dictKeys (movieBuild a []),
      pyContains p "_lte" = false ∧ pyContains p "_gte" = false := by
  intro p hp
  rcases mem_dictKeys_buildParams (movieParams a) [] hp with h | h
  · simp [dictKeys] at h
  · rw [movieParams_fst] at h
    exact (by decide :
      ∀ q ∈ movieWireKeys, pyContains q "_lte" = false ∧ pyContains q "_gte" = false) p h

theorem tvBuild_clean (a : DiscoverTvArgs) :
    ∀ p ∈ dictKeys (tvBuild a []),
      pyContains p "_lte" = false ∧ pyContains p "_gte" = false := by
  intro p hp
  rcases mem_dictKeys_buildParams (tvParams a) [] hp with h | h
  · simp [dictKeys] at h
  · rw [tvParams_fst] at h
    exact (by decide :
      ∀ q ∈ tvWireKeys, pyContains q "_lte" = false ∧ pyContains q "_gte" = false) p h

theorem discoverMovieKwargs_base (a : DiscoverMovieArgs) :
    discoverMovieKwargs a [] = Except.ok (movieBuild a []) :=
  rewriteKwargs_clean (movieBuild a []) (movieBuild_clean a)

theorem discoverTvKwargs_base (a : DiscoverTvArgs) :
    discoverTvKwargs a [] = Except.ok (tvBuild a []) :=
  rewriteKwargs_clean (tvBuild a []) (tvBuild_clean a)

theorem dictLookup_buildParams_missK (ps : List (String × Option Value))
    (extra : List (String × Value)) (k : String)
    (h : k ∉ ps.map Prod.fst) :
    dictLookup (buildParams extra ps) k = dictLookup extra k :=
  dictLookup_buildParams_miss ps extra k
    (fun kv hkv he => h (he ▸ List.mem_map.mpr ⟨kv, hkv, rfl⟩))

theorem movieParams_nodup (a : DiscoverMovieArgs) :
    ((movieParams a).map Prod.fst).Nodup := by
  rw [movieParams_fst]
  decide

theorem tvParams_nodup (a : DiscoverTvArgs) :
    ((tvParams a).map Prod.fst).Nodup := by
  rw [tvParams_fst]
  decide

theorem dictLookup_mirror_not_mem (fields : List (String × Json))
    (attrs : List (String × Json)) (k : String)
    (h : k ∉ fields.map Prod.fst) :
    dictLookup (fields.foldl (fun acc kv => dictInsert acc kv.1 kv.2) attrs) k
      = dictLookup attrs k := by
  induction fields generalizing attrs with
  | nil => rfl
  | cons p ps ih =>
    simp only [List.foldl_cons]
    rw [ih (dictInsert attrs p.1 p.2) (fun hk => h (by simp [hk]))]
    rw [dictLookup_insert]
    exact if_neg (fun he => h (by simp [he]))

theorem dictLookup_mirror_mem (fields : List (String × Json))
    (attrs : List (String × Json)) (k : String) (v : Json)
    (hnd : (fields.map Prod.fst).Nodup) (hmem : (k, v) ∈ fields) :
    dictLookup (fields.foldl (fun acc kv => dictInsert acc kv.1 kv.2) attrs) k
      = some v := by
  induction fields generalizing attrs with
  | nil => simp at hmem
  | cons p ps ih =>
    simp only [List.foldl_cons]
    rcases List.mem_cons.mp hmem with h | h
    · subst h
      rw [dictLookup_mirror_not_mem ps _ k (List.nodup_cons.mp hnd).1]
      rw [dictLookup_insert, if_pos rfl]
    · exact ih (dictInsert attrs p.1 p.2) (List.nodup_cons.mp hnd).2 h

theorem movieHit (a : DiscoverMovieArgs) {k : String} {v : Option Value}
    (hmem : (k, v) ∈ movieParams a) : dictLookup (movieBuild a []) k = v :=
  dictLookup_buildParams_hit _ _ _ _ rfl (movieParams_nodup a) hmem

theorem movieAbsent (a : DiscoverMovieArgs) {k : String} (h : k ∉ movieWireKeys) :
    dictLookup (movieBuild a []) k = none :=
  (dictLookup_buildParams_missK _ _ _ (by rw [movieParams_fst]; exact h)).trans rfl

theorem tvHit (b : DiscoverTvArgs) {k : String} {v : Option Value}
    (hmem : (k, v) ∈ tvParams b) : dictLookup (tvBuild b []) k = v :=
  dictLookup_buildParams_hit _ _ _ _ rfl (tvParams_nodup b) hmem

theorem tvAbsent (b : DiscoverTvArgs) {k : String} (h : k ∉ tvWireKeys) :
    dictLookup (tvBuild b []) k = none :=
  (dictLookup_buildParams_missK _ _ _ (by rw [tvParams_fst]; exact h)).trans rfl

/-- Claim C2 (amended): for every declared parameter of the discovery
methods whose local name carries an `_gte` or `_lte` suffix, the final
outgoing query mapping holds the supplied value under the dot-joined wire
key and holds no key in the underscore form.  The amendment: the rewrite
pass replaces every occurrence of the substring, not only a trailing
suffix, which coincides with suffix replacement exactly when the suffix
is the only occurrence — true of all declared parameters but not of
arbitrary extra keyword arguments (see the counterexample). -/
theorem gte_lte_wire_keys (a : DiscoverMovieArgs) (b : DiscoverTvArgs) :
    ∃ dm dt,
      discoverMovieKwargs a [] = Except.ok dm ∧
      discoverTvKwargs b [] = Except.ok dt ∧
      dictLookup dm "certification.lte" = optStr a.certification_lte ∧
      dictLookup dm "certification_lte" = none ∧
      dictLookup dm "certification.gte" = optStr a.certification_gte ∧
      dictLookup dm "certification_gte" = none ∧
      dictLookup dm "primary_release_date.gte" = optStr a.primary_release_date_gte ∧
      dictLookup dm "primary_release_date_gte" = none ∧
      dictLookup dm "primary_release_date.lte" = optStr a.primary_release_date_lte ∧
      dictLookup dm "primary_release_date_lte" = none ∧
      dictLookup dm "release_date.gte" = optStr a.release_date_gte ∧
      dictLookup dm "release_date_gte" = none ∧
      dictLookup dm "release_date.lte" = optStr a.release_date_lte ∧
      dictLookup dm "release_date_lte" = none ∧
      dictLookup dm "vote_count.gte" = optInt a.vote_count_gte ∧
      dictLookup dm "vote_count_gte" = none ∧
      dictLookup dm "vote_count.lte" = optInt a.vote_count_lte ∧
      dictLookup dm "vote_count_lte" = none ∧
      dictLookup dm "vote_average.gte" = optFloat a.vote_average_gte ∧
      dictLookup dm "vote_average_gte" = none ∧
      dictLookup dm "vote_average.lte" = optFloat a.vote_average_lte ∧
      dictLookup dm "vote_average_lte" = none ∧
      dictLookup dm "with_runtime.gte" = optInt a.with_runtime_gte ∧
      dictLookup dm "with_runtime_gte" = none ∧
      dictLookup dm "with_runtime.lte" = optInt a.with_runtime_lte ∧
      dictLookup dm "with_runtime_lte" = none ∧
      dictLookup dt "air_date.gte" = optStr b.air_date_gte ∧
      dictLookup dt "air_date_gte" = none ∧
      dictLookup dt "air_date.lte" = optStr b.air_date_lte ∧
      dictLookup dt "air_date_lte" = none ∧
      dictLookup dt "first_air_date.gte" = optStr b.first_air_date_gte ∧
      dictLookup dt "first_air_date_gte" = none ∧
      dictLookup dt "first_air_date.lte" = optStr b.first_air_date_lte ∧
      dictLookup dt "first_air_date_lte" = none ∧
      dictLookup dt "vote_average.gte" = optFloat b.vote_average_gte ∧
      dictLookup dt "vote_average_gte" = none ∧
      dictLookup dt "vote_count.gte" = optInt b.vote_count_gte ∧
      dictLookup dt "vote_count_gte" = none ∧
      dictLookup dt "with_runtime.gte" = optInt b.with_runtime_gte ∧
      dictLookup dt "with_runtime_gte" = none ∧
      dictLookup dt "with_runtime.lte" = optInt b.with_runtime_lte ∧
      dictLookup dt "with_runtime_lte" = none :=
  ⟨movieBuild a [], tvBuild b [],
    discoverMovieKwargs_base a,
    discoverTvKwargs_base b,
    movieHit a (by simp [movieParams]),
    movieAbsent a (by decide),
    movieHit a (by simp [movieParams]),
    movieAbsent a (by decide),
    movieHit a (by simp [movieParams]),
    movieAbsent a (by decide),
    movieHit a (by simp [movieParams]),
    movieAbsent a (by decide),
    movieHit a (by simp [movieParams]),
    movieAbsent a (by decide),
    movieHit a (by simp [movieParams]),
    movieAbsent a (by decide),
    movieHit a (by simp [movieParams]),
    movieAbsent a (by decide),
    movieHit a (by simp [movieParams]),
    movieAbsent a (by decide),
    movieHit a (by simp [movieParams]),
    movieAbsent a (by decide),
    movieHit a (by simp [movieParams]),
    movieAbsent a (by decide),
    movieHit a (by simp [movieParams]),
    movieAbsent a (by decide),
    movieHit a (by simp [movieParams]),
    movieAbsent a (by decide),
    tvHit b (by simp [tvParams]),
    tvAbsent b (by decide),
    tvHit b (by simp [tvParams]),
    tvAbsent b (by decide),
    tvHit b (by simp [tvParams]),
    tvAbsent b (by decide),
    tvHit b (by simp [tvParams]),
    tvAbsent b (by decide),
    tvHit b (by simp [tvParams]),
    tvAbsent b (by decide),
    tvHit b (by simp [tvParams]),
    tvAbsent b (by decide),
    tvHit b (by simp [tvParams]),
    tvAbsent b (by decide),
    tvHit b (by simp [tvParams]),
    tvAbsent b (by decide)⟩

/-- Claim C2 counterexample: the extra keyword argument `a_gte_b_gte`
carries an `_gte` suffix, so the claim as stated promises the wire key
`a_gte_b.gte` (only the suffix replaced).  The code instead replaces
every occurrence and produces `a.gte_b.gte`, leaving no `a_gte_b.gte`
key in the outgoing mapping. -/
theorem gte_suffix_rewrite_cx :
    discoverMovieKwargs {} [("a_gte_b_gte", Value.str "x")]
      = Except.ok [("a.gte_b.gte", Value.str "x")] ∧
    dictLookup [("a.gte_b.gte", Value.str "x")] "a_gte_b.gte" = none :=
  ⟨rfl, rfl⟩

/-- Arguments of end-to-end scenario 3: exactly `vote_average_gte = 7.0`
and `primary_release_date_lte = "2020-01-01"` supplied. -/
def scenario3Args : DiscoverMovieArgs :=
  { vote_average_gte := some 7, primary_release_date_lte := some "2020-01-01" }

/-- Claim C3 (confirmed): calling `Discover.movie` with exactly
`vote_average_gte = 7.0` and `primary_release_date_lte = "2020-01-01"`
supplied produces the query mapping holding exactly the two dot-form
keys `vote_average.gte` and `primary_release_date.lte` with those values
and no other keys. -/
theorem discover_movie_scenario3 :
    discoverMovieKwargs scenario3Args []
      = Except.ok [("primary_release_date.lte", Value.str "2020-01-01"),
                   ("vote_average.gte", Value.float 7)] ∧
    dictLookup [("primary_release_date.lte", Value.str "2020-01-01"),
                ("vote_average.gte", Value.float 7)] "vote_average.gte"
      = some (Value.float 7) ∧
    dictLookup [("primary_release_date.lte", Value.str "2020-01-01"),
                ("vote_average.gte", Value.float 7)] "primary_release_date.lte"
      = some (Value.str "2020-01-01") ∧
    dictKeys [("primary_release_date.lte", Value.str "2020-01-01"),
              ("vote_average.gte", Value.float 7)]
      = ["primary_release_date.lte", "vote_average.gte"] :=
  ⟨rfl, rfl, rfl, rfl⟩

/-- Claim C10 (amended): the discovery methods accept arbitrary extra
keyword arguments and pass each through under its given name after
replacing every occurrence of `_gte` by `.gte` and `_lte` by `.lte`
anywhere in the key — provided the key does not contain both substrings;
a key containing both raises a `KeyError` inside the rewrite loop (see
the counterexample).  Stated for a single extra keyword argument with
all declared parameters unset. -/
theorem kwargs_rewrite_anywhere (k : String) (v : Value) :
    (pyContains k "_lte" = false → pyContains k "_gte" = true →
      discoverMovieKwargs {} [(k, v)] = Except.ok [(pyReplace k "_gte" ".gte", v)] ∧
      discoverTvKwargs {} [(k, v)] = Except.ok [(pyReplace k "_gte" ".gte", v)]) ∧
    (pyContains k "_lte" = true → pyContains k "_gte" = false →
      discoverMovieKwargs {} [(k, v)] = Except.ok [(pyReplace k "_lte" ".lte", v)] ∧
      discoverTvKwargs {} [(k, v)] = Except.ok [(pyReplace k "_lte" ".lte", v)]) ∧
    (pyContains k "_lte" = false → pyContains k "_gte" = false →
      discoverMovieKwargs {} [(k, v)] = Except.ok [(k, v)] ∧
      discoverTvKwargs {} [(k, v)] = Except.ok [(k, v)]) := by
  have hm : movieBuild {} [(k, v)] = [(k, v)] := rfl
  have ht : tvBuild {} [(k, v)] = [(k, v)] := rfl
  refine ⟨fun e1 e2 => ?_, fun e1 e2 => ?_, fun e1 e2 => ?_⟩ <;>
    constructor <;>
    simp only [discoverMovieKwargs, discoverTvKwargs, hm, ht] <;>
    simp [rewriteKwargs, dictKeys, rewriteLoop, rewriteParam, e1, e2,
      dictPop, dictInsert]

/-- Claim C10 counterexample: an extra keyword argument whose name
contains both `_lte` and `_gte` is not passed through at all — the
rewrite loop pops the key for the `_lte` replacement and then pops the
same, now absent, original key again for the `_gte` replacement, raising
a `KeyError`, so no outgoing request is assembled. -/
theorem kwargs_both_suffixes_cx :
    discoverMovieKwargs {} [("a_lte_b_gte", Value.str "x")] = Except.error () :=
  rfl

/-- Claim C10 witness: the three amended branches evaluated at concrete
extra keyword arguments. -/
theorem kwargs_rewrite_anywhere_witness :
    discoverMovieKwargs {} [("with_runtime_gte", Value.int 30)]
      = Except.ok [("with_runtime.gte", Value.int 30)] ∧
    discoverTvKwargs {} [("air_date_lte", Value.str "d")]
      = Except.ok [("air_date.lte", Value.str "d")] ∧
    discoverMovieKwargs {} [("with_genres", Value.str "18")]
      = Except.ok [("with_genres", Value.str "18")] :=
  ⟨((kwargs_rewrite_anywhere "with_runtime_gte" (Value.int 30)).1 rfl rfl).1,
   ((kwargs_rewrite_anywhere "air_date_lte" (Value.str "d")).2.1 rfl rfl).2,
   ((kwargs_rewrite_anywhere "with_genres" (Value.str "18")).2.2 rfl rfl).1⟩

/-- Claim C1 counterexample: `Lists.list_create` with `language` left
unset still puts the key `language` into the outgoing JSON body, with
value `null` — the dictionary literal in account.py lines 651 to 655
includes the key unconditionally. -/
theorem list_create_language_null_cx :
    dictLookup (listCreatePayload "My List" "desc" none) "language"
      = some Value.null :=
  rfl

/-- Claim C1 (amended): for every optional parameter that a reviewed
method collects with a conditional insert — all query parameters, shown
here for `Account.lists`, `Movies.details` and both discovery methods —
leaving the parameter unset leaves its wire key absent from the outgoing
request.  The amendment: the one exception is the JSON body of
`Lists.list_create`, which always carries the `language` key, as `null`
when the caller leaves the parameter unset. -/
theorem optional_params_omitted :
    (∀ page, dictLookup (accountListsKwargs none page) "language" = none) ∧
    (∀ language, dictLookup (accountListsKwargs language none) "page" = none) ∧
    (∀ append, dictLookup (moviesDetailsKwargs none append) "language" = none) ∧
    (∀ language, dictLookup (moviesDetailsKwargs language none) "append_to_response"
      = none) ∧
    discoverMovieKwargs {} [] = Except.ok [] ∧
    discoverTvKwargs {} [] = Except.ok [] ∧
    (∀ name description,
      dictLookup (listCreatePayload name description none) "language"
        = some Value.null) := by
  refine ⟨fun p => ?_, fun l => ?_, fun ap => ?_, fun l => ?_, rfl, rfl,
    fun n d => rfl⟩
  · cases p <;> rfl
  · cases l <;> rfl
  · cases ap <;> rfl
  · cases l <;> rfl

/-- Claim C4 (confirmed, mirror modelled from the spec): after a call
whose decoded response is a JSON object with distinct keys, every
top-level key of the object is readable on the resource object with the
response's value, overwriting any earlier attribute of that name, and
attributes not named by a response key keep their previous value. -/
theorem response_mirror_object (attrs fields : List (String × Json))
    (k : String) (v : Json) (hnd : (fields.map Prod.fst).Nodup) :
    ((k, v) ∈ fields →
      dictLookup (setAttrsToValues attrs (Json.obj fields)) k = some v) ∧
    (k ∉ fields.map Prod.fst →
      dictLookup (setAttrsToValues attrs (Json.obj fields)) k = dictLookup attrs k) :=
  ⟨fun hmem => dictLookup_mirror_mem fields attrs k v hnd hmem,
   fun h => dictLookup_mirror_not_mem fields attrs k h⟩

/-- Claim C4 witness: mirroring a two-key object onto an object that
already holds one of the keys and an unrelated attribute. -/
theorem response_mirror_object_witness :
    dictLookup (setAttrsToValues [("title", Json.str "old"), ("kept", Json.num 3)]
        (Json.obj [("title", Json.str "Fight Club"), ("id", Json.num 550)])) "title"
      = some (Json.str "Fight Club") ∧
    dictLookup (setAttrsToValues [("title", Json.str "old"), ("kept", Json.num 3)]
        (Json.obj [("title", Json.str "Fight Club"), ("id", Json.num 550)])) "kept"
      = dictLookup [("title", Json.str "old"), ("kept", Json.num 3)] "kept" :=
  ⟨(response_mirror_object [("title", Json.str "old"), ("kept", Json.num 3)]
      [("title", Json.str "Fight Club"), ("id", Json.num 550)]
      "title" (Json.str "Fight Club") (by decide)).1 (List.mem_cons_self _ _),
   (response_mirror_object [("title", Json.str "old"), ("kept", Json.num 3)]
      [("title", Json.str "Fight Club"), ("id", Json.num 550)]
      "kept" Json.null (by decide)).2 (by decide)⟩

/-- Claim C5 (confirmed, mirror modelled from the spec): when the decoded
response is a JSON array the mirror step is skipped, so every attribute
of the resource object is exactly as before the call. -/
theorem response_mirror_array_noop (attrs : List (String × Json))
    (elems : List Json) :
    setAttrsToValues attrs (Json.arr elems) = attrs :=
  rfl

/-- Claim C6 (confirmed, mirror modelled from the spec): calling
`Lists.list_create` with name `My List`, description `desc` and language
unset sends a POST whose query mapping is exactly the session identifier
and whose JSON body is exactly the three keys `name`, `description` and
`language`, the last one `null`; afterwards the `id` attribute holds the
`list_id` returned by the service (mirrored onto the object and then
copied into `id` by account.py line 659). -/
theorem list_create_scenario (sid : Value) (i s : Json)
    (fields : List (String × Json)) (v : Json)
    (hnd : (fields.map Prod.fst).Nodup) (hmem : ("list_id", v) ∈ fields) :
    listCreateQuery sid = [("session_id", sid)] ∧
    listCreatePayload "My List" "desc" none
      = [("name", Value.str "My List"), ("description", Value.str "desc"),
         ("language", Value.null)] ∧
    ∃ attrs2,
      listCreateAfter (listsInitAttrs i s) (Json.obj fields) = some attrs2 ∧
      dictLookup attrs2 "id" = some v := by
  have hmirror :
      dictLookup (setAttrsToValues (listsInitAttrs i s) (Json.obj fields)) "list_id"
        = some v :=
    dictLookup_mirror_mem fields _ _ _ hnd hmem
  refine ⟨rfl, rfl,
    dictInsert (setAttrsToValues (listsInitAttrs i s) (Json.obj fields)) "id" v,
    ?_, ?_⟩
  · have hdef :
        listCreateAfter (listsInitAttrs i s) (Json.obj fields)
          = match dictLookup (setAttrsToValues (listsInitAttrs i s)
              (Json.obj fields)) "list_id" with
            | some w =>
              some (dictInsert (setAttrsToValues (listsInitAttrs i s)
                (Json.obj fields)) "id" w)
            | none => none := rfl
    rw [hdef, hmirror]
  · rw [dictLookup_insert, if_pos rfl]

/-- Claim C6 witness: a concrete creation response carrying
`list_id = 5`. -/
theorem list_create_scenario_witness :
    ∃ attrs2,
      listCreateAfter (listsInitAttrs (Json.num 0) (Json.str "sess"))
          (Json.obj [("status_message", Json.str "ok"), ("list_id", Json.num 5)])
        = some attrs2 ∧
      dictLookup attrs2 "id" = some (Json.num 5) :=
  (list_create_scenario (Value.str "sess") (Json.num 0) (Json.str "sess")
    [("status_message", Json.str "ok"), ("list_id", Json.num 5)] (Json.num 5)
    (by decide) (List.mem_cons_of_mem _ (List.mem_cons_self _ _))).2.2

/-- Claim C7 (confirmed, base layer modelled from the spec): requesting
an endpoint name that is not a key of the endpoint-template map fails
with a configuration error naming the endpoint; the result is the same
for every possible network outcome — no network call is consulted — and
no updated attribute bag is produced, so the resource object is
unchanged. -/
theorem unknown_endpoint_config_error (basePath : String)
    (urls : List (String × String)) (key : String)
    (attrs : List (String × Json)) (query : List (String × Value))
    (outcome : HttpOutcome) (h : dictLookup urls key = none) :
    runGetMethod basePath urls key attrs query outcome
      = Except.error (ApiError.config key) := by
  simp [runGetMethod, getPath, h]

/-- Claim C7 witness: the `Movies` endpoint map has no entry named
`nonexistent`. -/
theorem unknown_endpoint_config_error_witness :
    runGetMethod "movie" moviesURLS "nonexistent" [] []
        (HttpOutcome.success Json.null)
      = Except.error (ApiError.config "nonexistent") :=
  unknown_endpoint_config_error "movie" moviesURLS "nonexistent" [] []
    (HttpOutcome.success Json.null) rfl

/-- Claim C8 (confirmed, dispatcher modelled from the spec): when the
remote service answers any known endpoint with a non-success HTTP
status, the call fails with the remote-error kind carrying exactly that
status code; it is a different error kind from a decode failure and no
result value is returned. -/
theorem http_error_propagates_status (basePath : String)
    (urls : List (String × String)) (key tmpl : String)
    (attrs : List (String × Json)) (query : List (String × Value))
    (status : Nat) (h : dictLookup urls key = some tmpl) :
    runGetMethod basePath urls key attrs query (HttpOutcome.httpError status)
      = Except.error (ApiError.http status) ∧
    ApiError.http status ≠ ApiError.decode := by
  constructor
  · simp [runGetMethod, getPath, dispatch, h]
  · intro he
    exact ApiError.noConfusion he

/-- Claim C8 witness: a 404 on the movie-details endpoint. -/
theorem http_error_propagates_status_witness :
    runGetMethod "movie" moviesURLS "details" [] [] (HttpOutcome.httpError 404)
      = Except.error (ApiError.http 404) ∧
    ApiError.http 404 ≠ ApiError.decode :=
  http_error_propagates_status "movie" moviesURLS "details" "/{id}" [] [] 404 rfl

/-- Claim C9 (confirmed, base layer modelled from the spec): the
`Account` constructor stores only the session identifier, so before any
successful `info` call the object has no `id` attribute; every per-id
method then fails with an attribute-access error while building its
path; `info` itself reads the `id` key of the response — assigning it to
the object — and fails when that key is absent. -/
theorem account_id_lifecycle (sid : Json) :
    dictLookup (accountInitAttrs sid) "id" = none ∧
    (∀ key ∈ accountPerIdMethods,
      getIdPath "account" accountURLS (accountInitAttrs sid) key
        = Except.error (PathFailure.attrMissing "id")) ∧
    (∀ attrs fields v, (List.map Prod.fst fields).Nodup → ("id", v) ∈ fields →
      ∃ attrs2, accountInfo attrs (Json.obj fields) = Except.ok attrs2 ∧
        dictLookup attrs2 "id" = some v) ∧
    (∀ attrs fields, "id" ∉ List.map Prod.fst fields →
      ∃ e, accountInfo attrs (Json.obj fields) = Except.error e) := by
  refine ⟨rfl, ?_, ?_, ?_⟩
  · intro key hk
    simp only [accountPerIdMethods, List.mem_cons, List.not_mem_nil,
      or_false] at hk
    rcases hk with rfl | rfl | rfl | rfl | rfl | rfl | rfl | rfl | rfl | rfl <;>
      rfl
  · intro attrs fields v hnd hmem
    have hid : dictLookup fields "id" = some v :=
      dictLookup_of_nodup_mem fields "id" v hnd hmem
    have hdef :
        accountInfo attrs (Json.obj fields)
          = match dictLookup fields "id" with
            | some w =>
              Except.ok (setAttrsToValues (dictInsert attrs "id" w)
                (Json.obj fields))
            | none => Except.error "KeyError: id" := rfl
    refine ⟨setAttrsToValues (dictInsert attrs "id" v) (Json.obj fields), ?_, ?_⟩
    · rw [hdef, hid]
    · exact dictLookup_mirror_mem fields _ "id" v hnd hmem
  · intro attrs fields h
    have hid : dictLookup fields "id" = none :=
      dictLookup_of_not_mem fields "id" h
    have hdef :
        accountInfo attrs (Json.obj fields)
          = match dictLookup fields "id" with
            | some w =>
              Except.ok (setAttrsToValues (dictInsert attrs "id" w)
                (Json.obj fields))
            | none => Except.error "KeyError: id" := rfl
    exact ⟨"KeyError: id", by rw [hdef, hid]⟩

/-- Claim C9 witness: a fresh account with session identifier `abc`
fails on `lists`; `info` succeeds on a response carrying `id = 550` and
fails on a response without an `id` key. -/
theorem account_id_lifecycle_witness :
    getIdPath "account" accountURLS (accountInitAttrs (Json.str "abc")) "lists"
      = Except.error (PathFailure.attrMissing "id") ∧
    (∃ attrs2,
      accountInfo [] (Json.obj [("id", Json.num 550), ("name", Json.str "x")])
        = Except.ok attrs2 ∧
      dictLookup attrs2 "id" = some (Json.num 550)) ∧
    (∃ e, accountInfo [] (Json.obj [("name", Json.str "x")]) = Except.error e) :=
  ⟨(account_id_lifecycle (Json.str "abc")).2.1 "lists" (by decide),
   (account_id_lifecycle (Json.str "abc")).2.2.1 []
     [("id", Json.num 550), ("name", Json.str "x")] (Json.num 550)
     (by decide) (List.mem_cons_self _ _),
   (account_id_lifecycle (Json.str "abc")).2.2.2 [] [("name", Json.str "x")]
     (by decide)⟩
